import Mathlib

/-!
Shallow embedding of the tf_doudian synchronization pipeline
(`oe_pg_loader.py`, `oe_qianchuan_comments.py`, `oe_qianchuan_accounts.py`,
`oe_monitor_rules.py`) and proofs about its persistence, retry, pagination
and alerting behaviour.

Tables are modelled as association lists keyed by the natural key of the
SQL table; `ON CONFLICT ... DO UPDATE` becomes an update of the matching
entry via an explicit merge function, `ON CONFLICT DO NOTHING` becomes a
guarded append.  JSON payloads are opaque strings; SQL `NULL` is `Option`;
epoch timestamps are integers.
-/

namespace TfDoudian

/-- SQL `COALESCE(a, b)`: the first non-null argument. -/
def coalesce : Option α → Option α → Option α
  | some v, _ => some v
  | none, b => b

/-- Look a key up in an association-list table (first match). -/
def findRow [DecidableEq K] : List (K × V) → K → Option V
  | [], _ => none
  | (k2, v) :: rest, k => if k2 = k then some v else findRow rest k

/-- SQL `INSERT ... ON CONFLICT (key) DO UPDATE`: update the first row with the
key using `merge`, or append `ins` when the key is absent. -/
def tupsert [DecidableEq K] : List (K × V) → K → V → (V → V) → List (K × V)
  | [], k, ins, _ => [(k, ins)]
  | (k2, v) :: rest, k, ins, merge =>
    if k2 = k then (k2, merge v) :: rest
    else (k2, v) :: tupsert rest k ins merge

theorem findRow_tupsert_self [DecidableEq K] (t : List (K × V)) (k : K) (ins : V)
    (merge : V → V) :
    findRow (tupsert t k ins merge) k =
      some (match findRow t k with | some v => merge v | none => ins) := by
  induction t with
  | nil => simp [tupsert, findRow]
  | cons p rest ih =>
    obtain ⟨k2, v⟩ := p
    by_cases h : k2 = k
    · simp [tupsert, findRow, h]
    · simp [tupsert, findRow, h, ih]

theorem findRow_tupsert_ne [DecidableEq K] (t : List (K × V)) (k k2 : K) (ins : V)
    (merge : V → V) (h : k ≠ k2) :
    findRow (tupsert t k2 ins merge) k = findRow t k := by
  have h2 : ¬(k2 = k) := fun hh => h hh.symm
  induction t with
  | nil => simp [tupsert, findRow, h2]
  | cons p rest ih =>
    obtain ⟨k3, v⟩ := p
    by_cases h3 : k3 = k2
    · subst h3
      simp [tupsert, findRow, h2]
    · by_cases h4 : k3 = k
      · simp [tupsert, findRow, h3, h4, h, h2]
      · simp [tupsert, findRow, h3, h4, ih]

/-- Row update that keeps every key in place (a SQL `UPDATE ... WHERE`). -/
theorem findRow_map_rows [DecidableEq K] (t : List (K × V)) (g : K → V → V) (k : K) :
    findRow (t.map (fun p => (p.1, g p.1 p.2))) k = (findRow t k).map (g k) := by
  induction t with
  | nil => simp [findRow]
  | cons p rest ih =>
    obtain ⟨k2, v⟩ := p
    by_cases h : k2 = k
    · subst h; simp [findRow]
    · simp [findRow, h, ih]

/-! ## `oe_pg_loader.upsert_dim_advertiser` -/

/-- One advertiser object of `latest.json` as consumed by
`upsert_dim_advertiser` (fields read with `adv.get(...)`, so each may be
absent / `None`). -/
structure AdvInput where
  advertiser_id : Nat
  advertiser_name : Option String
  company : Option String
  first_industry_name : Option String
  second_industry_name : Option String
  status : Option String
deriving Repr, DecidableEq

/-- A row of `oe.dim_advertiser` (columns touched by the loader). -/
structure DimAdvertiserRow where
  advertiser_name : Option String
  company : Option String
  first_industry_name : Option String
  second_industry_name : Option String
  status : Option String
  first_seen_at : Nat
  last_seen_at : Nat
deriving Repr, DecidableEq

abbrev DimTable := List (Nat × DimAdvertiserRow)

/-- The VALUES tuple built by `upsert_dim_advertiser`: note
`status = str(adv.get("status") or "")` is always a (possibly empty)
string, never SQL NULL. -/
def dimInsertRow (inp : AdvInput) (ts : Nat) : DimAdvertiserRow :=
  { advertiser_name := inp.advertiser_name
    company := inp.company
    first_industry_name := inp.first_industry_name
    second_industry_name := inp.second_industry_name
    status := some (inp.status.getD "")
    first_seen_at := ts
    last_seen_at := ts }

/-- The `ON CONFLICT (advertiser_id) DO UPDATE SET` clause of
`upsert_dim_advertiser`: `advertiser_name` is overwritten unconditionally
(`EXCLUDED.advertiser_name`), the other dimension fields use
`COALESCE(EXCLUDED.x, old.x)`, `first_seen_at` is untouched and
`last_seen_at` is overwritten. -/
def mergeDimAdvertiser (new old : DimAdvertiserRow) : DimAdvertiserRow :=
  { advertiser_name := new.advertiser_name
    company := coalesce new.company old.company
    first_industry_name := coalesce new.first_industry_name old.first_industry_name
    second_industry_name := coalesce new.second_industry_name old.second_industry_name
    status := coalesce new.status old.status
    first_seen_at := old.first_seen_at
    last_seen_at := new.last_seen_at }

def upsertDimAdvertiser (t : DimTable) (inp : AdvInput) (ts : Nat) : DimTable :=
  tupsert t inp.advertiser_id (dimInsertRow inp ts)
    (fun old => mergeDimAdvertiser (dimInsertRow inp ts) old)

/-! ## `oe_qianchuan_comments.upsert_comments` -/

/-- Python truthiness of an optional string: `None` and `""` are falsy.
This is also SQL `NULLIF(x, '')`. -/
def pyStrTruthy : Option String → Option String
  | some s => if s = "" then none else some s
  | none => none

/-- Python `a or b` on two optional strings. -/
def pyOrOpt (a b : Option String) : Option String :=
  match pyStrTruthy a with
  | some s => some s
  | none => b

/-- One comment object from the `comment/get` API as read by
`upsert_comments` (every field accessed with `c.get(...)`, so each may be
absent).  Values are modelled post-conversion: ids and counters as `Nat`,
`create_time` as the already-parsed epoch of `_parse_comment_time`, the
JSON payload as an opaque string. -/
structure CommentInput where
  advertiser_id : Option Nat := none
  comment_id : Option Nat := none
  create_time : Option Nat := none
  text : Option String := none
  content : Option String := none
  emotion_type : Option String := none
  hide_status : Option String := none
  level_type : Option String := none
  is_replied : Option Bool := none
  reply_count : Option Nat := none
  like_count : Option Nat := none
  user_id : Option String := none
  user_name : Option String := none
  author_id : Option String := none
  author_name : Option String := none
  aweme_id : Option String := none
  aweme_name : Option String := none
  ad_id : Option String := none
  ad_name : Option String := none
  creative_id : Option String := none
  item_id : Option String := none
  item_title : Option String := none
  raw : String := ""
deriving Repr, DecidableEq

/-- A row of `oe.fact_comment` (columns touched by the pipeline;
`hidden_at` is only written by `mark_hidden_in_fact`). -/
structure CommentRow where
  comment_time : Option Nat
  comment_text : Option String
  emotion_type : Option String
  hide_status : Option String
  level_type : Option String
  is_replied : Option Bool
  reply_count : Option Nat
  like_count : Option Nat
  user_id : Option String
  user_name : Option String
  aweme_id : Option String
  aweme_name : Option String
  ad_id : Option String
  ad_name : Option String
  creative_id : Option String
  item_id : Option String
  item_title : Option String
  raw : String
  hidden_at : Option Nat
  last_seen_at : Nat
deriving Repr, DecidableEq

abbrev CommentTable := List ((Nat × Nat) × CommentRow)

/-- The VALUES tuple built for one comment by `upsert_comments`:
`comment_text` is `c.get("text") or c.get("content") or ""`, the counters
are `int(float(x or 0))`, `user_id`/`user_name` fall back to the author
fields, `hidden_at` is not in the column list (NULL on insert). -/
def commentInsertRow (c : CommentInput) (seenTs : Nat) : CommentRow :=
  { comment_time := c.create_time
    comment_text := some (((pyStrTruthy c.text).orElse fun _ => pyStrTruthy c.content).getD "")
    emotion_type := c.emotion_type
    hide_status := c.hide_status
    level_type := c.level_type
    is_replied := c.is_replied
    reply_count := some (c.reply_count.getD 0)
    like_count := some (c.like_count.getD 0)
    user_id := pyOrOpt c.user_id c.author_id
    user_name := pyOrOpt c.user_name c.author_name
    aweme_id := c.aweme_id
    aweme_name := c.aweme_name
    ad_id := c.ad_id
    ad_name := c.ad_name
    creative_id := c.creative_id
    item_id := c.item_id
    item_title := c.item_title
    raw := c.raw
    hidden_at := none
    last_seen_at := seenTs }

/-- The `ON CONFLICT (advertiser_id, comment_id) DO UPDATE SET` clause of
`upsert_comments`: every dimension field is `COALESCE(EXCLUDED.x, old.x)`
(`comment_text` additionally via `NULLIF(..., '')`), `raw` and
`last_seen_at` are overwritten, `hidden_at` is untouched. -/
def mergeComment (new old : CommentRow) : CommentRow :=
  { comment_time := coalesce new.comment_time old.comment_time
    comment_text := coalesce (pyStrTruthy new.comment_text) old.comment_text
    emotion_type := coalesce new.emotion_type old.emotion_type
    hide_status := coalesce new.hide_status old.hide_status
    level_type := coalesce new.level_type old.level_type
    is_replied := coalesce new.is_replied old.is_replied
    reply_count := coalesce new.reply_count old.reply_count
    like_count := coalesce new.like_count old.like_count
    user_id := coalesce new.user_id old.user_id
    user_name := coalesce new.user_name old.user_name
    aweme_id := coalesce new.aweme_id old.aweme_id
    aweme_name := coalesce new.aweme_name old.aweme_name
    ad_id := coalesce new.ad_id old.ad_id
    ad_name := coalesce new.ad_name old.ad_name
    creative_id := coalesce new.creative_id old.creative_id
    item_id := coalesce new.item_id old.item_id
    item_title := coalesce new.item_title old.item_title
    raw := new.raw
    hidden_at := old.hidden_at
    last_seen_at := new.last_seen_at }

/-- The key/value pair `upsert_comments` appends to `values` for one
comment, or `none` when the natural key is missing
(`adv_id = int(c.get("advertiser_id") or 0)`, skipped when falsy). -/
def commentValue (seenTs : Nat) (c : CommentInput) : Option ((Nat × Nat) × CommentRow) :=
  let adv := c.advertiser_id.getD 0
  let cid := c.comment_id.getD 0
  if adv = 0 ∨ cid = 0 then none
  else some ((adv, cid), commentInsertRow c seenTs)

/-- Function `upsert_comments(cur, rows, seen_ts)`: build the VALUES list (dropping
rows without both natural-key parts), apply the batched upsert and return
`len(values)`.  (The early `return 0` branches for empty `rows`/`values`
coincide with folding over the empty list.) -/
def upsertComments (t : CommentTable) (rows : List CommentInput) (seenTs : Nat) :
    CommentTable × Nat :=
  let values := rows.filterMap (commentValue seenTs)
  (values.foldl (fun acc kv => tupsert acc kv.1 kv.2 (fun old => mergeComment kv.2 old)) t,
   values.length)

/-! ## `oe_qianchuan_comments` action table and hide pipeline -/

/-- A row of `oe.fact_comment_action` (key `(advertiser_id, comment_id,
action)` is kept in the table key).  `notified_at` is not in the INSERT
column list of `upsert_action` (NULL on first insert). -/
structure ActionRow where
  action_ts : Nat
  status : String
  request_id : Option String
  error_code : Option Int
  error_message : Option String
  raw : Option String
  notified_at : Option Nat
deriving Repr, DecidableEq

abbrev ActionTable := List ((Nat × Nat × String) × ActionRow)

def actionInsertRow (ts : Nat) (status : String) (reqId : Option String)
    (ec : Option Int) (em : Option String) (raw : Option String) : ActionRow :=
  { action_ts := ts, status := status, request_id := reqId, error_code := ec
    error_message := em, raw := raw, notified_at := none }

/-- The `ON CONFLICT (advertiser_id, comment_id, action) DO UPDATE SET`
clause of `upsert_action`: timestamp, status, request id and error fields
are overwritten, `raw = COALESCE(EXCLUDED.raw, old.raw)`, and
`notified_at` is not mentioned (left as stored). -/
def mergeActionRow (new old : ActionRow) : ActionRow :=
  { action_ts := new.action_ts
    status := new.status
    request_id := new.request_id
    error_code := new.error_code
    error_message := new.error_message
    raw := coalesce new.raw old.raw
    notified_at := old.notified_at }

/-- Function `upsert_action(cur, advertiser_id, comment_id, action, status, ...)`. -/
def upsertAction (t : ActionTable) (advId cid : Nat) (action : String) (ts : Nat)
    (status : String) (reqId : Option String) (ec : Option Int) (em : Option String)
    (raw : Option String) : ActionTable :=
  tupsert t (advId, cid, action) (actionInsertRow ts status reqId ec em raw)
    (fun old => mergeActionRow (actionInsertRow ts status reqId ec em raw) old)

/-- Per-row effect of `mark_notified`: rows matching one of the
`(advertiser_id, comment_id)` keys with `action='hide'` and
`status='success'` get `notified_at = NOW()`. -/
def markNotifiedRow (keys : List (Nat × Nat)) (now : Nat) (k : Nat × Nat × String)
    (r : ActionRow) : ActionRow :=
  if (k.1, k.2.1) ∈ keys ∧ k.2.2 = "hide" ∧ r.status = "success" then
    { r with notified_at := some now }
  else r

/-- Function `mark_notified(cur, keys)` (an `UPDATE ... FROM (VALUES ...)`). -/
def markNotified (t : ActionTable) (keys : List (Nat × Nat)) (now : Nat) : ActionTable :=
  t.map (fun p => (p.1, markNotifiedRow keys now p.1 p.2))

/-- Function `mark_hidden_in_fact(cur, advertiser_id, comment_ids)`: set
`hide_status='HIDE'`, `hidden_at=COALESCE(hidden_at, NOW())`,
`last_seen_at=NOW()` on the matching comment rows. -/
def markHiddenInFact (t : CommentTable) (advId : Nat) (commentIds : List Nat)
    (now : Nat) : CommentTable :=
  t.map (fun p =>
    if p.1.1 = advId ∧ p.1.2 ∈ commentIds then
      (p.1, { p.2 with
        hide_status := some "HIDE"
        hidden_at := coalesce p.2.hidden_at (some now)
        last_seen_at := now })
    else p)

/-- The parsed body of a successful `comment/hide` response:
`data.success_comment_ids` (after the `isdigit` filter and `int` cast) and
the envelope `request_id`. -/
structure HideResp where
  success_comment_ids : List Nat
  request_id : Option String
deriving Repr, DecidableEq

/-- Outcome of one `api_hide_comments` call: a success envelope, or any
exception `e` (transport failure or `OeApiError`), whose `str(e)` becomes
the recorded error message. -/
inductive HideOutcome where
  | ok (resp : HideResp)
  | exn (msg : String)

/-- The `(comment_id, status)` action-outcome writes issued for one hide
batch by `run_once`/`backfill`: every reported success id gets a
`'success'` row, every batch id not in the success list a `'failed'` row;
an exception marks the whole batch `'failed'`. -/
def hideBatchStatusWrites (batch : List Nat) (outcome : HideOutcome) :
    List (Nat × String) :=
  match outcome with
  | .ok r =>
    let fails := batch.filter (fun x => decide (x ∉ r.success_comment_ids))
    r.success_comment_ids.map (fun c => (c, "success"))
      ++ fails.map (fun c => (c, "failed"))
  | .exn _ => batch.map (fun c => (c, "failed"))

/-- In-memory state of the database connection during one pass. -/
structure DB where
  comments : CommentTable
  actions : ActionTable
deriving Repr, DecidableEq

/-- The body of the per-batch `try` block of `run_once` (lines 713-736):
on a success envelope, mark reported ids hidden in `fact_comment` and
upsert one action row per success id and per remaining id of the batch;
on an exception, upsert a `'failed'` action row for the whole batch. -/
def applyHideBatch (db : DB) (advId : Nat) (now : Nat) (batch : List Nat)
    (outcome : HideOutcome) : DB :=
  match outcome with
  | .ok r =>
    let fails := batch.filter (fun x => decide (x ∉ r.success_comment_ids))
    let comments :=
      if r.success_comment_ids = [] then db.comments
      else markHiddenInFact db.comments advId r.success_comment_ids now
    let actions := r.success_comment_ids.foldl
      (fun t c => upsertAction t advId c "hide" now "success" r.request_id none none
        (some "resp")) db.actions
    let actions := fails.foldl
      (fun t c => upsertAction t advId c "hide" now "failed" r.request_id none
        (some "hide failed") (some "resp")) actions
    { comments := comments, actions := actions }
  | .exn msg =>
    { db with actions := (batch.foldl
        (fun t c => upsertAction t advId c "hide" now "failed" none none (some msg)
          (some "error")) db.actions) }

/-- Python `sorted(set(xs))` for the de-duplication of `to_hide`. -/
def insertSorted (x : Nat) : List Nat → List Nat
  | [] => [x]
  | y :: ys => if x ≤ y then x :: y :: ys else y :: insertSorted x ys

def sortAsc (l : List Nat) : List Nat := l.foldr insertSorted []

def sortedDedup (l : List Nat) : List Nat := sortAsc l.dedup

/-- Split into the ≤20-id batches of the hide API
(`for i in range(0, len(to_hide), 20)`); the fuel `l.length` always
suffices since each step drops at least one element. -/
def chunks20Aux : Nat → List Nat → List (List Nat)
  | _, [] => []
  | 0, _ :: _ => []
  | fuel + 1, x :: xs => ((x :: xs).take 20) :: chunks20Aux fuel ((x :: xs).drop 20)

def chunks20 (l : List Nat) : List (List Nat) := chunks20Aux l.length l

/-! ## `oe_qianchuan_comments.run_once` as one database transaction -/

def OE_NO_PERMISSION_CODE : Int := 40002

/-- Outcome of paginating `api_get_comments` for one advertiser: the
concatenated pages, or an `OeApiError` raised mid-pagination (in which
case the partially fetched list is discarded by the `continue`/`raise`). -/
inductive FetchResult where
  | ok (rows : List CommentInput)
  | apiErr (code : Int) (msg : String)

/-- The upstream interactions `run_once` performs for one advertiser:
the comment fetch and the outcome of the i-th hide batch call. -/
structure AdvTask where
  advId : Nat
  fetch : FetchResult
  hide : Nat → HideOutcome

/-- The `to_hide` collection of `run_once`: negative, not-yet-hidden comments
whose `comment_id` parses (`int(...)` failures are swallowed). -/
def toHideOf (rows : List CommentInput) : List Nat :=
  rows.filterMap (fun c =>
    if c.emotion_type = some "NEGATIVE" ∧ c.hide_status ≠ some "HIDE" then c.comment_id
    else none)

/-- Body of the per-advertiser loop of `run_once`: a permission-denied
`OeApiError` (code 40002) skips the advertiser; any other `OeApiError`
propagates; otherwise the fetched comments are upserted (after
`c["advertiser_id"] = adv_id`), and the de-duplicated negative ids are
hidden in batches of 20. -/
def processAdv (now : Nat) (db : DB) (t : AdvTask) : Except (Int × String) DB :=
  match t.fetch with
  | .apiErr code msg =>
    if code = OE_NO_PERMISSION_CODE then .ok db else .error (code, msg)
  | .ok rows0 =>
    let rows := rows0.map (fun c => { c with advertiser_id := some t.advId })
    let db1 : DB := { db with comments := (upsertComments db.comments rows now).1 }
    let toHide := toHideOf rows
    if toHide = [] then .ok db1
    else
      let batches := chunks20 (sortedDedup toHide)
      .ok (batches.enum.foldl
        (fun d ib => applyHideBatch d t.advId now ib.2 (t.hide ib.1)) db1)

def runOnceLoop (now : Nat) (db : DB) : List AdvTask → Except (Int × String) DB
  | [] => .ok db
  | t :: ts =>
    match processAdv now db t with
    | .ok db2 => runOnceLoop now db2 ts
    | .error e => .error e

/-- The `run_once` transaction semantics (`conn.autocommit = False`): all
writes of the pass go through one cursor; `conn.commit()` publishes the
final state only on full success, any unhandled exception triggers
`conn.rollback()` and re-raises, leaving the committed database equal to
the state before the pass.  The result pairs the reported outcome with
the committed database state after the pass. -/
def runOncePass (db : DB) (now : Nat) (tasks : List AdvTask) :
    Except (Int × String) Unit × DB :=
  match runOnceLoop now db tasks with
  | .ok finalDb => (.ok (), finalDb)
  | .error e => (.error e, db)

/-! ## `oe_monitor_rules.insert_alert` -/

/-- A row of `oe.fact_alert_event`; money quantities (Python floats)
are modelled as rationals. -/
structure AlertRow where
  alert_ts : Nat
  advertiser_id : Nat
  rule_id : String
  severity : String
  balance_valid : Rat
  baseline_spend : Rat
  threshold_multiplier : Rat
  ratio_val : Rat
  snapshot_ts : Nat
  baseline_ts : Option Nat
  dedup_key : String
  detail : String
deriving Repr, DecidableEq

/-- The dedup key strings built in `main` of `oe_monitor_rules.py`:
`f"{adv_id}|{rule}|{bucket}"` where the bucket is the China-timezone day
for RULE_00 and the hour string for RULE_30M / RULE_1H. -/
def alertDedupKey (advId : Nat) (ruleId bucket : String) : String :=
  s!"{advId}|{ruleId}|{bucket}"

/-- Function `insert_alert(...)`: computes the ratio and executes
`INSERT ... ON CONFLICT (dedup_key) DO NOTHING`, returning `cur.rowcount`
(1 when inserted, 0 when the key already existed). -/
def insertAlert (t : List AlertRow) (now advId : Nat) (ruleId severity : String)
    (balanceValid baselineSpend mult : Rat) (snapshotTs : Nat) (baselineTs : Option Nat)
    (dedupKey : String) (detail : String) : List AlertRow × Nat :=
  let rv : Rat := if 0 < baselineSpend then balanceValid / baselineSpend else 0
  if ∃ r ∈ t, r.dedup_key = dedupKey then (t, 0)
  else
    (t ++ [{ alert_ts := now, advertiser_id := advId, rule_id := ruleId
             severity := severity, balance_valid := balanceValid
             baseline_spend := baselineSpend, threshold_multiplier := mult
             ratio_val := rv, snapshot_ts := snapshotTs, baseline_ts := baselineTs
             dedup_key := dedupKey, detail := detail }], 1)

/-- Schema invariant of `oe.fact_alert_event`: `dedup_key` is unique. -/
def alertKeysNodup (t : List AlertRow) : Prop := (t.map (fun r => r.dedup_key)).Nodup

/-! ## `oe_qianchuan_comments.ensure_access_token` -/

/-- The token cache file (`oe_token_cache.json`) as parsed by
`TokenCache.from_dict`; string fields are the stripped values. -/
structure TokenCache where
  access_token : String
  refresh_token : String
  expires_at_epoch : Int
  refresh_expires_at_epoch : Int
deriving Repr, DecidableEq

/-- The `data` object of a successful `oauth2/refresh_token` response. -/
structure RefreshData where
  access_token : String
  expires_in : Int
  refresh_token : String
  refresh_token_expires_in : Int
deriving Repr, DecidableEq

/-- Process environment and clock at the time of the call. -/
structure OAuthEnv where
  app_id : String
  app_secret : String
  now : Int
deriving Repr, DecidableEq

/-- Function `ensure_access_token(token_cache_path, refresh_token_override)` of
`oe_qianchuan_comments.py`.  `cache0` is the parsed cache file (or `none`
when absent), `refreshCall` the outcome of the (single logical)
`oauth2/refresh_token` network request.  Returns the resulting cache
together with the number of network requests issued. -/
def ensureFromCache (env : OAuthEnv) (c : TokenCache)
    (refreshCall : Except String RefreshData) : Except String (TokenCache × Nat) :=
  if c.access_token ≠ "" ∧ c.expires_at_epoch ≠ 0 ∧
      env.now < c.expires_at_epoch - 120 then
    .ok (c, 0)
  else if c.refresh_expires_at_epoch ≠ 0 ∧
      c.refresh_expires_at_epoch - 120 < env.now then
    .error "refresh_token expired; re-authorize"
  else
    match refreshCall with
    | .error e => .error e
    | .ok d =>
      if d.access_token = "" ∨ d.expires_in ≤ 0 then
        .error "refresh_token refresh returned bad data"
      else
        .ok ({ c with
          access_token := d.access_token
          expires_at_epoch := env.now + d.expires_in
          refresh_token := if d.refresh_token = "" then c.refresh_token
            else d.refresh_token
          refresh_expires_at_epoch := if 0 < d.refresh_token_expires_in then
            env.now + d.refresh_token_expires_in
            else c.refresh_expires_at_epoch }, 1)

def ensureAccessToken (env : OAuthEnv) (cache0 : Option TokenCache)
    (refreshOverride : Option String) (refreshCall : Except String RefreshData) :
    Except String (TokenCache × Nat) :=
  if env.app_id = "" ∨ env.app_secret = "" then
    .error "missing OE_APP_ID / OE_APP_SECRET"
  else
    match cache0, refreshOverride with
    | none, none => .error "token cache missing and no refresh_token given"
    | none, some ov =>
      ensureFromCache env
        { access_token := "", refresh_token := ov, expires_at_epoch := 0
          refresh_expires_at_epoch := 0 } refreshCall
    | some c, none => ensureFromCache env c refreshCall
    | some c, some ov =>
      ensureFromCache env { c with refresh_token := ov } refreshCall

/-! ## `oe_qianchuan_comments.request_json_with_retry` -/

/-- A parsed OceanEngine JSON envelope (`code`, `message or msg`,
`help_message or help`, `request_id`); a failed `int(code)` parse is the
sentinel `-1` as in the source. -/
structure ApiResp where
  code : Int
  message : String
  help : String
  request_id : String
deriving Repr, DecidableEq

/-- What one HTTP attempt produces: a transport-level exception (timeout,
connection error, or a non-JSON body, all caught by the generic
`except Exception`) or a decoded JSON envelope. -/
inductive Attempt where
  | transportError (e : String)
  | response (r : ApiResp)
deriving Repr, DecidableEq

/-- How `request_json_with_retry` terminates: a success envelope is
returned; a non-retryable (or retry-exhausted) envelope raises
`OeApiError(code, msg, help, request_id)` via `oe_check_ok`; exhausted
transport failures raise `RuntimeError` wrapping the last exception. -/
inductive ReqResult where
  | ok (r : ApiResp)
  | apiError (code : Int) (msg : String) (help : String) (request_id : String)
  | transportFailure (e : String)
deriving Repr, DecidableEq

/-- The `for attempt in range(1, max_attempts + 1)` loop of
`request_json_with_retry`: `upstream i` is what attempt `i` produces,
`remaining` counts the attempts still allowed including the current one.
Returns the outcome and the number of HTTP requests issued. -/
def reqLoop (retryCodes : List Int) (upstream : Nat → Attempt) :
    Nat → Nat → ReqResult × Nat
  | _, 0 => (.transportFailure "no attempt made", 0)
  | attemptIdx, remaining + 1 =>
    match upstream attemptIdx with
    | .transportError e =>
      if remaining = 0 then (.transportFailure e, 1)
      else
        let r := reqLoop retryCodes upstream (attemptIdx + 1) remaining
        (r.1, r.2 + 1)
    | .response resp =>
      if resp.code = 0 then (.ok resp, 1)
      else if resp.code ∈ retryCodes ∧ remaining ≠ 0 then
        let r := reqLoop retryCodes upstream (attemptIdx + 1) remaining
        (r.1, r.2 + 1)
      else (.apiError resp.code resp.message resp.help resp.request_id, 1)

def requestJsonWithRetry (retryCodes : List Int) (maxAttempts : Nat)
    (upstream : Nat → Attempt) : ReqResult × Nat :=
  reqLoop retryCodes upstream 1 maxAttempts

/-- Default `retry_codes = retry_codes or {40100, 51010, 50000}`. -/
def defaultRetryCodes : List Int := [40100, 51010, 50000]

/-- The systemic throttle code of the platform (`code=40100`). -/
def OE_SYSTEM_THROTTLE_CODE : Int := 40100

/-- How `OEClient._call_with_retry` (oe_qianchuan_accounts.py) ends: the
loop returns the last response envelope as-is (its callers decide via
`oe_check_ok`), or re-raises the last transport exception once the
attempt budget is exhausted. -/
inductive CallResult where
  | resp (r : ApiResp)
  | raised (e : String)
deriving Repr, DecidableEq

/-- The `for attempt in range(1, max_attempts + 1)` loop of
`OEClient._call_with_retry`: a code-0 envelope returns; code 40100 is
retried while attempts remain (an exhausted throttle budget returns the
last response as-is); any other code returns the response immediately; a
transport exception is retried while attempts remain and re-raised on
the last attempt.  The fallback for a never-entered loop is the source's
`last_resp or {"code": -1, "message": "empty response"}`.  Returns the
outcome and the number of HTTP requests issued. -/
def callWithRetryLoop (upstream : Nat → Attempt) : Nat → Nat → CallResult × Nat
  | _, 0 => (.resp ⟨-1, "empty response", "", ""⟩, 0)
  | attemptIdx, remaining + 1 =>
    match upstream attemptIdx with
    | .transportError e =>
      if remaining = 0 then (.raised e, 1)
      else
        let r := callWithRetryLoop upstream (attemptIdx + 1) remaining
        (r.1, r.2 + 1)
    | .response resp =>
      if resp.code = 0 then (.resp resp, 1)
      else if resp.code = OE_SYSTEM_THROTTLE_CODE ∧ remaining ≠ 0 then
        let r := callWithRetryLoop upstream (attemptIdx + 1) remaining
        (r.1, r.2 + 1)
      else (.resp resp, 1)

def callWithRetry (upstream : Nat → Attempt) (maxAttempts : Nat) : CallResult × Nat :=
  callWithRetryLoop upstream 1 maxAttempts

/-- One OEClient business call: `_call_with_retry` followed by the
accounts-side `oe_check_ok(resp, action)`, which every OEClient method
applies to the returned envelope — a non-zero code raises an error
carrying code, message, help and request id. -/
def oeClientCall (upstream : Nat → Attempt) (maxAttempts : Nat) : ReqResult × Nat :=
  match callWithRetry upstream maxAttempts with
  | (.raised e, n) => (.transportFailure e, n)
  | (.resp r, n) =>
    if r.code = 0 then (.ok r, n)
    else (.apiError r.code r.message r.help r.request_id, n)

/-! ## Pagination (`OEClient.qc_shop_advertiser_list`, finance loop of
`build_inventory`) -/

/-- One already-validated, parsed page of
`qianchuan/shop/advertiser/list/`: the ids and item objects extracted by
`parse_shop_adv_list` (items modelled by their `adv_id`), and
`page_info.total_page or 0`. -/
structure ShopAdvResp where
  advIds : List Nat
  advItems : List Nat
  totalPage : Nat
deriving Repr, DecidableEq

/-- The `while True` loop of `qc_shop_advertiser_list`: stop when the
declared total page count is reached, when a page is empty, or when no
total count is given and the page is shorter than `page_size`; otherwise
advance.  `fuel` bounds the unrolling (the source loop is unbounded);
returns accumulated ids, items and the number of page requests. -/
def qcShopAdvLoop (pages : Nat → ShopAdvResp) (pageSize : Nat) :
    Nat → Nat → List Nat → List Nat → Nat → List Nat × List Nat × Nat
  | 0, _, accIds, accItems, reqs => (accIds, accItems, reqs)
  | fuel + 1, page, accIds, accItems, reqs =>
    let resp := pages page
    let accIds2 := accIds ++ resp.advIds
    let accItems2 := accItems ++ resp.advItems
    let reqs2 := reqs + 1
    if resp.totalPage ≠ 0 ∧ resp.totalPage ≤ page then (accIds2, accItems2, reqs2)
    else if resp.advIds = [] ∧ resp.advItems = [] then (accIds2, accItems2, reqs2)
    else if resp.totalPage = 0 ∧ resp.advIds.length + resp.advItems.length < pageSize then
      (accIds2, accItems2, reqs2)
    else qcShopAdvLoop pages pageSize fuel (page + 1) accIds2 accItems2 reqs2

/-- Function `qc_shop_advertiser_list` top level (ids de-duplicated and sorted at
the end). -/
def qcShopAdvertiserList (pages : Nat → ShopAdvResp) (pageSize fuel : Nat) :
    List Nat × List Nat × Nat :=
  let r := qcShopAdvLoop pages pageSize fuel 1 [] [] 0
  (sortedDedup r.1, r.2.1, r.2.2)

/-- One parsed `qc_finance_detail_get` page inside `build_inventory`:
the rows of `deep_get_list` (opaque) and `page_info.total_page or 0`. -/
structure FinanceResp where
  rows : List Nat
  totalPage : Nat
deriving Repr, DecidableEq

/-- The finance pagination loop of `build_inventory` (lines 779-793):
stop when the declared total page count is reached, or when no total
count is given and the page is empty or shorter than `page_size`. -/
def financeFetchLoop (pages : Nat → FinanceResp) (pageSize : Nat) :
    Nat → Nat → List Nat → Nat → List Nat × Nat
  | 0, _, acc, reqs => (acc, reqs)
  | fuel + 1, page, acc, reqs =>
    let d := pages page
    let acc2 := acc ++ d.rows
    let reqs2 := reqs + 1
    if d.totalPage ≠ 0 ∧ d.totalPage ≤ page then (acc2, reqs2)
    else if d.totalPage = 0 ∧ (d.rows = [] ∨ d.rows.length < pageSize) then (acc2, reqs2)
    else financeFetchLoop pages pageSize fuel (page + 1) acc2 reqs2

/-! ## `backfill.daterange_chunks` -/

/-- The `while cur <= e` loop of `daterange_chunks`: emit
`(cur, min(e, cur + days - 1))` and restart at the day after the window
end.  Dates are day numbers; `fuel` bounds the loop (with `days ≥ 1` the
fuel `e + 1 - s` is never exhausted). -/
def daterangeChunksAux (e days : Nat) : Nat → Nat → List (Nat × Nat)
  | 0, _ => []
  | fuel + 1, cur =>
    if cur ≤ e then
      (cur, min e (cur + days - 1)) ::
        daterangeChunksAux e days fuel (min e (cur + days - 1) + 1)
    else []

/-- Function `daterange_chunks(s, e, days)` of `backfill`. -/
def daterangeChunks (s e days : Nat) : List (Nat × Nat) :=
  daterangeChunksAux e days (e + 1 - s) s

/-- The days covered by a chunk list, in order (window `(a, b)` covers
`a, a+1, ..., b`). -/
def chunkCover (cs : List (Nat × Nat)) : List Nat :=
  cs.foldr (fun c acc => List.range' c.1 (c.2 + 1 - c.1) ++ acc) []

/-! ## Claim C1 -/

/-- Claim C1 (amended): on a dimension upsert of an already-stored
advertiser, `company`, `first_industry_name`, `second_industry_name` keep
the stored value when the new batch value is null (`COALESCE` semantics),
and `status` is always written as a non-null string; `advertiser_name`,
however, is overwritten unconditionally with the new value, null or not.
The comment upsert's slowly-changing fields all follow the `COALESCE`
merge. -/
theorem dim_upsert_scd_merge
    (t : DimTable) (inp : AdvInput) (old : DimAdvertiserRow) (ts : Nat)
    (hfound : findRow t inp.advertiser_id = some old) :
    (∃ row, findRow (upsertDimAdvertiser t inp ts) inp.advertiser_id = some row
      ∧ (inp.company = none → row.company = old.company)
      ∧ (inp.first_industry_name = none → row.first_industry_name = old.first_industry_name)
      ∧ (inp.second_industry_name = none → row.second_industry_name = old.second_industry_name)
      ∧ row.status = some (inp.status.getD "")
      ∧ row.advertiser_name = inp.advertiser_name)
    ∧ ∀ (new oldC : CommentRow),
        ((new.emotion_type = none → (mergeComment new oldC).emotion_type = oldC.emotion_type)
      ∧ (new.hide_status = none → (mergeComment new oldC).hide_status = oldC.hide_status)
      ∧ (new.user_name = none → (mergeComment new oldC).user_name = oldC.user_name)
      ∧ ((new.comment_text = some "" ∨ new.comment_text = none) →
          (mergeComment new oldC).comment_text = oldC.comment_text)) := by
  constructor
  · refine ⟨mergeDimAdvertiser (dimInsertRow inp ts) old, ?_, ?_, ?_, ?_, ?_, ?_⟩
    · rw [upsertDimAdvertiser, findRow_tupsert_self, hfound]
    · intro h; simp [mergeDimAdvertiser, dimInsertRow, coalesce, h]
    · intro h; simp [mergeDimAdvertiser, dimInsertRow, coalesce, h]
    · intro h; simp [mergeDimAdvertiser, dimInsertRow, coalesce, h]
    · simp [mergeDimAdvertiser, dimInsertRow, coalesce]
    · simp [mergeDimAdvertiser, dimInsertRow]
  · intro new oldC
    refine ⟨?_, ?_, ?_, ?_⟩
    · intro h; simp [mergeComment, coalesce, h]
    · intro h; simp [mergeComment, coalesce, h]
    · intro h; simp [mergeComment, coalesce, h]
    · rintro (h | h) <;> simp [mergeComment, coalesce, pyStrTruthy, h]

theorem dim_upsert_scd_merge_witness :
    (findRow (upsertDimAdvertiser
        [(1, ⟨some "Acme", some "Holding", some "Retail", some "Apparel",
              some "ENABLE", 5, 5⟩)]
        ⟨1, some "Acme New", none, none, none, some "ENABLE"⟩ 9) 1).map
      (fun r => r.company) = some (some "Holding") := by
  obtain ⟨⟨row, h1, h2, -⟩, -⟩ := dim_upsert_scd_merge
    [(1, ⟨some "Acme", some "Holding", some "Retail", some "Apparel", some "ENABLE", 5, 5⟩)]
    ⟨1, some "Acme New", none, none, none, some "ENABLE"⟩
    ⟨some "Acme", some "Holding", some "Retail", some "Apparel", some "ENABLE", 5, 5⟩ 9
    (by decide)
  rw [h1]
  simp [h2 rfl]

/-- Claim C1 counterexample: a stored non-null `advertiser_name` is
overwritten with SQL NULL when the new batch carries a null name — the
upsert does regress a stored non-null dimension field to null. -/
theorem dim_upsert_name_null_regression :
    (findRow [(1, (⟨some "Acme", some "Holding", some "Retail", some "Apparel",
          some "ENABLE", 5, 5⟩ : DimAdvertiserRow))] 1).map
        (fun r => r.advertiser_name) = some (some "Acme")
    ∧ (findRow (upsertDimAdvertiser
        [(1, ⟨some "Acme", some "Holding", some "Retail", some "Apparel",
              some "ENABLE", 5, 5⟩)]
        ⟨1, none, none, none, none, none⟩ 9) 1).map
        (fun r => r.advertiser_name) = some none := by
  constructor
  · rfl
  · rfl

/-! ## Claim C5 -/

/-- Claim C5: the alert dedup key is a deterministic function of
`(entity, rule, time bucket)`; under the schema invariant that
`dedup_key` is unique, `insert_alert` preserves the invariant, inserting
a key that already exists is a no-op returning rowcount 0 (not an error,
not an update), and re-inserting the same `(entity, rule, bucket)` right
after a successful insert is a no-op — so at most one alert row per tuple
ever exists. -/
theorem insert_alert_dedup
    (t : List AlertRow) (now1 now2 advId : Nat) (ruleId sev : String)
    (bal base mult : Rat) (snapTs : Nat) (bTs : Option Nat)
    (bucket detail1 detail2 : String)
    (hnd : alertKeysNodup t) :
    alertKeysNodup (insertAlert t now1 advId ruleId sev bal base mult snapTs bTs
        (alertDedupKey advId ruleId bucket) detail1).1
    ∧ ((∃ r ∈ t, r.dedup_key = alertDedupKey advId ruleId bucket) →
        insertAlert t now1 advId ruleId sev bal base mult snapTs bTs
          (alertDedupKey advId ruleId bucket) detail1 = (t, 0))
    ∧ insertAlert (insertAlert t now1 advId ruleId sev bal base mult snapTs bTs
          (alertDedupKey advId ruleId bucket) detail1).1
        now2 advId ruleId sev bal base mult snapTs bTs
        (alertDedupKey advId ruleId bucket) detail2
      = ((insertAlert t now1 advId ruleId sev bal base mult snapTs bTs
          (alertDedupKey advId ruleId bucket) detail1).1, 0) := by
  by_cases hmem : ∃ r ∈ t, r.dedup_key = alertDedupKey advId ruleId bucket
  · refine ⟨?_, ?_, ?_⟩
    · simpa [insertAlert, hmem] using hnd
    · intro _; simp [insertAlert, hmem]
    · simp [insertAlert, hmem]
  · refine ⟨?_, ?_, ?_⟩
    · have hknot : alertDedupKey advId ruleId bucket ∉ t.map (fun r => r.dedup_key) := by
        intro hin
        obtain ⟨r, hr, hrk⟩ := List.mem_map.mp hin
        exact hmem ⟨r, hr, hrk⟩
      have hnd2 : ((t.map (fun r => r.dedup_key)) ++
          [alertDedupKey advId ruleId bucket]).Nodup := by
        rw [List.nodup_append]
        exact ⟨hnd, List.nodup_singleton _, by
          intro x hx hx2
          rw [List.mem_singleton] at hx2
          exact hknot (hx2 ▸ hx)⟩
      simpa [insertAlert, hmem, alertKeysNodup] using hnd2
    · rintro ⟨r, hr, hrk⟩
      exact absurd ⟨r, hr, hrk⟩ hmem
    · simp [insertAlert, hmem]
      exact ⟨_, Or.inr rfl, rfl⟩

theorem insert_alert_dedup_witness :
    insertAlert (insertAlert [] 10 7 "RULE_00" "warn" 1000 600 2 3 none
        (alertDedupKey 7 "RULE_00" "2025-12-19") "d1").1
      11 7 "RULE_00" "warn" 1000 600 2 3 none
      (alertDedupKey 7 "RULE_00" "2025-12-19") "d2"
    = ((insertAlert [] 10 7 "RULE_00" "warn" 1000 600 2 3 none
        (alertDedupKey 7 "RULE_00" "2025-12-19") "d1").1, 0) :=
  (insert_alert_dedup [] 10 11 7 "RULE_00" "warn" 1000 600 2 3 none
    "2025-12-19" "d1" "d2" (by simp [alertKeysNodup])).2.2

/-! ## Claim C6 -/

/-- Claim C6: with a cached access token whose expiry lies more than the
120-second safety margin in the future, `ensure_access_token` returns the
cached credential and performs zero network requests; a refresh-token
override only replaces the `refresh_token` field, still without any
network call. -/
theorem ensure_access_token_reuses_cache
    (env : OAuthEnv) (c : TokenCache) (oracle : Except String RefreshData)
    (h1 : env.app_id ≠ "") (h2 : env.app_secret ≠ "")
    (h3 : c.access_token ≠ "") (h4 : 120 < c.expires_at_epoch - env.now)
    (h5 : 0 ≤ env.now) :
    ensureAccessToken env (some c) none oracle = .ok (c, 0)
    ∧ ∀ ov, ensureAccessToken env (some c) (some ov) oracle
        = .ok ({ c with refresh_token := ov }, 0) := by
  have hexp : c.expires_at_epoch ≠ 0 := by omega
  have hlt : env.now < c.expires_at_epoch - 120 := by omega
  constructor
  · simp [ensureAccessToken, ensureFromCache, h1, h2, h3, hexp, hlt]
  · intro ov
    simp [ensureAccessToken, ensureFromCache, h1, h2, h3, hexp, hlt]

theorem ensure_access_token_reuses_cache_witness :
    ensureAccessToken ⟨"app", "secret", 1000⟩
      (some ⟨"tok", "rt", 2000, 0⟩) none (.error "refresh not reached")
    = .ok (⟨"tok", "rt", 2000, 0⟩, 0) :=
  (ensure_access_token_reuses_cache ⟨"app", "secret", 1000⟩ ⟨"tok", "rt", 2000, 0⟩
    (.error "refresh not reached") (by decide) (by decide) (by decide)
    (by decide) (by decide)).1

/-! ## Claim C8 -/

/-- Claim C8: a comment whose natural key is incomplete (missing or falsy
`advertiser_id` or `comment_id`) is dropped from the batch by
`upsert_comments`; the batch is processed exactly as if the malformed
entity were absent — same resulting table and same reported row count —
so a malformed entity is never fatal to the batch. -/
theorem upsert_comments_drops_malformed
    (t : CommentTable) (pre post : List CommentInput) (m : CommentInput) (ts : Nat)
    (hbad : m.advertiser_id.getD 0 = 0 ∨ m.comment_id.getD 0 = 0) :
    upsertComments t (pre ++ m :: post) ts = upsertComments t (pre ++ post) ts := by
  have hnone : commentValue ts m = none := by
    simp [commentValue, hbad]
  simp [upsertComments, List.filterMap_append, List.filterMap_cons, hnone]

theorem upsert_comments_drops_malformed_witness :
    upsertComments []
      [{ advertiser_id := some 1, comment_id := some 11, raw := "a" },
       { advertiser_id := none, comment_id := some 12, raw := "bad" },
       { advertiser_id := some 1, comment_id := some 13, raw := "c" }] 9
    = upsertComments []
      [{ advertiser_id := some 1, comment_id := some 11, raw := "a" },
       { advertiser_id := some 1, comment_id := some 13, raw := "c" }] 9 :=
  upsert_comments_drops_malformed []
    [{ advertiser_id := some 1, comment_id := some 11, raw := "a" }]
    [{ advertiser_id := some 1, comment_id := some 13, raw := "c" }]
    { advertiser_id := none, comment_id := some 12, raw := "bad" } 9 (by decide)

/-! ## Claim C4 -/

theorem reqLoop_requests_pos (retryCodes : List Int) (upstream : Nat → Attempt)
    (i remaining : Nat) :
    1 ≤ (reqLoop retryCodes upstream i (remaining + 1)).2 := by
  rw [reqLoop]
  cases upstream i with
  | transportError e =>
    by_cases h : remaining = 0 <;> simp [h]
  | response resp =>
    by_cases h0 : resp.code = 0
    · simp [h0]
    · by_cases hr : resp.code ∈ retryCodes ∧ remaining ≠ 0 <;> simp [h0, hr]

theorem callWithRetryLoop_requests_pos (upstream : Nat → Attempt)
    (i remaining : Nat) :
    1 ≤ (callWithRetryLoop upstream i (remaining + 1)).2 := by
  rw [callWithRetryLoop]
  cases upstream i with
  | transportError e =>
    by_cases h : remaining = 0 <;> simp [h]
  | response resp =>
    by_cases h0 : resp.code = 0
    · simp [h0]
    · by_cases hr : resp.code = OE_SYSTEM_THROTTLE_CODE ∧ remaining ≠ 0
      · obtain ⟨hr1, hr2⟩ := hr
        simp [hr1, hr2, OE_SYSTEM_THROTTLE_CODE]
      · simp [h0, hr]

theorem oeClientCall_requests (upstream : Nat → Attempt) (maxAttempts : Nat) :
    (oeClientCall upstream maxAttempts).2 = (callWithRetry upstream maxAttempts).2 := by
  rw [oeClientCall]
  rcases callWithRetry upstream maxAttempts with ⟨cr, n⟩
  cases cr with
  | raised e => rfl
  | resp r => by_cases h : r.code = 0 <;> simp [h]

/-- Claim C4 (amended): the accounts client — `OEClient._call_with_retry`
composed with the `oe_check_ok` its callers apply — behaves exactly as
the claim states: it retries only on the systemic-throttle code 40100
and on transport exceptions, and every other non-success code is
terminal after a single request, propagating immediately as an error
carrying code, message, help and request id.  The comments client
`request_json_with_retry`, however, retries on its configured retry-code
set, which defaults to `{40100, 51010, 50000}`: a first-response code
outside that set (and non-zero) is terminal — one request, an
`OeApiError` with code, message, help and request id — while a code
inside the set or a transport exception is retried while the attempt
budget allows. -/
theorem request_retry_policy
    (maxAttempts : Nat) (upstream : Nat → Attempt) (resp : ApiResp) (e : String)
    (hmax : 1 ≤ maxAttempts) :
    (upstream 1 = .response resp → resp.code ≠ 0 → resp.code ∉ defaultRetryCodes →
      requestJsonWithRetry defaultRetryCodes maxAttempts upstream
        = (.apiError resp.code resp.message resp.help resp.request_id, 1))
    ∧ (upstream 1 = .response resp → resp.code ∈ defaultRetryCodes → 2 ≤ maxAttempts →
      2 ≤ (requestJsonWithRetry defaultRetryCodes maxAttempts upstream).2)
    ∧ (upstream 1 = .transportError e → 2 ≤ maxAttempts →
      2 ≤ (requestJsonWithRetry defaultRetryCodes maxAttempts upstream).2)
    ∧ (upstream 1 = .response resp → resp.code ≠ 0 →
        resp.code ≠ OE_SYSTEM_THROTTLE_CODE →
      oeClientCall upstream maxAttempts
        = (.apiError resp.code resp.message resp.help resp.request_id, 1))
    ∧ (upstream 1 = .response resp → resp.code = OE_SYSTEM_THROTTLE_CODE →
        2 ≤ maxAttempts →
      2 ≤ (oeClientCall upstream maxAttempts).2)
    ∧ (upstream 1 = .transportError e → 2 ≤ maxAttempts →
      2 ≤ (oeClientCall upstream maxAttempts).2) := by
  obtain ⟨m, rfl⟩ : ∃ m, maxAttempts = m + 1 := ⟨maxAttempts - 1, by omega⟩
  refine ⟨?_, ?_, ?_, ?_, ?_, ?_⟩
  · intro hup hc0 hcr
    simp only [requestJsonWithRetry, reqLoop, hup]
    rw [if_neg hc0, if_neg (fun h => hcr h.1)]
  · intro hup hcr hm2
    obtain ⟨m2, rfl⟩ : ∃ m2, m = m2 + 1 := ⟨m - 1, by omega⟩
    have hc0 : ¬(resp.code = 0) := by
      simp only [defaultRetryCodes, List.mem_cons, List.not_mem_nil, or_false] at hcr
      omega
    have hand : resp.code ∈ defaultRetryCodes ∧ m2 + 1 ≠ 0 := ⟨hcr, by omega⟩
    simp only [requestJsonWithRetry, reqLoop, hup]
    rw [if_neg hc0, if_pos hand]
    have hpos := reqLoop_requests_pos defaultRetryCodes upstream 2 m2
    show 2 ≤ (reqLoop defaultRetryCodes upstream 2 (m2 + 1)).2 + 1
    omega
  · intro hup hm2
    obtain ⟨m2, rfl⟩ : ∃ m2, m = m2 + 1 := ⟨m - 1, by omega⟩
    simp only [requestJsonWithRetry, reqLoop, hup]
    rw [if_neg (by omega : ¬(m2 + 1 = 0))]
    have hpos := reqLoop_requests_pos defaultRetryCodes upstream 2 m2
    show 2 ≤ (reqLoop defaultRetryCodes upstream 2 (m2 + 1)).2 + 1
    omega
  · intro hup hc0 hth
    have hloop : callWithRetryLoop upstream 1 (m + 1) = (.resp resp, 1) := by
      simp only [callWithRetryLoop, hup]
      rw [if_neg hc0, if_neg (fun h => hth h.1)]
    simp [oeClientCall, callWithRetry, hloop, hc0]
  · intro hup hcr hm2
    obtain ⟨m2, rfl⟩ : ∃ m2, m = m2 + 1 := ⟨m - 1, by omega⟩
    have hc0 : ¬(resp.code = 0) := by
      rw [hcr]
      decide
    have hand : resp.code = OE_SYSTEM_THROTTLE_CODE ∧ m2 + 1 ≠ 0 := ⟨hcr, by omega⟩
    rw [oeClientCall_requests, callWithRetry]
    simp only [callWithRetryLoop, hup]
    rw [if_neg hc0, if_pos hand]
    have hpos := callWithRetryLoop_requests_pos upstream 2 m2
    show 2 ≤ (callWithRetryLoop upstream 2 (m2 + 1)).2 + 1
    omega
  · intro hup hm2
    obtain ⟨m2, rfl⟩ : ∃ m2, m = m2 + 1 := ⟨m - 1, by omega⟩
    rw [oeClientCall_requests, callWithRetry]
    simp only [callWithRetryLoop, hup]
    rw [if_neg (by omega : ¬(m2 + 1 = 0))]
    have hpos := callWithRetryLoop_requests_pos upstream 2 m2
    show 2 ≤ (callWithRetryLoop upstream 2 (m2 + 1)).2 + 1
    omega

theorem request_retry_policy_witness :
    requestJsonWithRetry defaultRetryCodes 6
        (fun _ => .response ⟨40001, "invalid params", "", "rid-9"⟩)
      = (.apiError 40001 "invalid params" "" "rid-9", 1)
    ∧ oeClientCall (fun _ => .response ⟨40001, "invalid params", "", "rid-9"⟩) 6
      = (.apiError 40001 "invalid params" "" "rid-9", 1) :=
  ⟨(request_retry_policy 6 (fun _ => .response ⟨40001, "invalid params", "", "rid-9"⟩)
      ⟨40001, "invalid params", "", "rid-9"⟩ "" (by decide)).1 rfl (by decide) (by decide),
   (request_retry_policy 6 (fun _ => .response ⟨40001, "invalid params", "", "rid-9"⟩)
      ⟨40001, "invalid params", "", "rid-9"⟩ "" (by decide)).2.2.2.1
     rfl (by decide) (by decide)⟩

/-- Claim C4 counterexample: a response with code 50000 — a non-success
code distinct from the systemic throttle code 40100 — is retried rather
than propagated: the call issues a second request and returns the second
attempt's success envelope. -/
theorem request_retry_nonthrottle_code_retried :
    requestJsonWithRetry defaultRetryCodes 6
        (fun n => if n = 1 then .response ⟨50000, "system error", "", "rid-1"⟩
          else .response ⟨0, "", "", "rid-2"⟩)
      = (.ok ⟨0, "", "", "rid-2"⟩, 2)
    ∧ (50000 : Int) ≠ OE_SYSTEM_THROTTLE_CODE := by
  constructor
  · rfl
  · decide

/-! ## Claim C7 -/

theorem qcShopAdvLoop_total_page_three
    (pages : Nat → ShopAdvResp) (pageSize f : Nat)
    (accIds accItems : List Nat) (reqs : Nat)
    (htp : ∀ p, (pages p).totalPage = 3)
    (h1 : ¬((pages 1).advIds = [] ∧ (pages 1).advItems = []))
    (h2 : ¬((pages 2).advIds = [] ∧ (pages 2).advItems = [])) :
    (qcShopAdvLoop pages pageSize (f + 3) 1 accIds accItems reqs).2.2 = reqs + 3 := by
  have e1 := htp 1
  have e2 := htp 2
  have e3 := htp 3
  rw [qcShopAdvLoop]
  simp only [e1, h1]
  norm_num
  rw [qcShopAdvLoop]
  simp only [e2, h2]
  norm_num
  rw [qcShopAdvLoop]
  simp only [e3]
  norm_num

theorem financeFetchLoop_total_page_three
    (pages : Nat → FinanceResp) (pageSize f : Nat) (acc : List Nat) (reqs : Nat)
    (htp : ∀ p, (pages p).totalPage = 3) :
    (financeFetchLoop pages pageSize (f + 3) 1 acc reqs).2 = reqs + 3 := by
  have e1 := htp 1
  have e2 := htp 2
  have e3 := htp 3
  rw [financeFetchLoop]
  simp only [e1]
  norm_num
  rw [financeFetchLoop]
  simp only [e2]
  norm_num
  rw [financeFetchLoop]
  simp only [e3]
  norm_num

/-- Claim C7 (amended): when every response declares `total_page = 3`,
the finance pagination of `build_inventory` stops after exactly 3 page
requests regardless of page content; the shop-advertiser paginator stops
after exactly 3 page requests provided pages 1 and 2 are non-empty (an
empty page stops it immediately, before the total-page check can fire). -/
theorem pagination_stops_at_total_page
    (pages : Nat → ShopAdvResp) (fpages : Nat → FinanceResp) (pageSize fuel : Nat)
    (htp : ∀ p, (pages p).totalPage = 3) (hftp : ∀ p, (fpages p).totalPage = 3)
    (h1 : ¬((pages 1).advIds = [] ∧ (pages 1).advItems = []))
    (h2 : ¬((pages 2).advIds = [] ∧ (pages 2).advItems = []))
    (hfuel : 3 ≤ fuel) :
    (qcShopAdvertiserList pages pageSize fuel).2.2 = 3
    ∧ (financeFetchLoop fpages pageSize fuel 1 [] 0).2 = 3 := by
  obtain ⟨f, rfl⟩ : ∃ f, fuel = f + 3 := ⟨fuel - 3, by omega⟩
  constructor
  · have := qcShopAdvLoop_total_page_three pages pageSize f [] [] 0 htp h1 h2
    simpa [qcShopAdvertiserList] using this
  · simpa using financeFetchLoop_total_page_three fpages pageSize f [] 0 hftp

theorem pagination_stops_at_total_page_witness :
    (qcShopAdvertiserList (fun _ => ⟨[5], [], 3⟩) 100 10).2.2 = 3
    ∧ (financeFetchLoop (fun _ => ⟨[], 3⟩) 100 10 1 [] 0).2 = 3 :=
  pagination_stops_at_total_page (fun _ => ⟨[5], [], 3⟩) (fun _ => ⟨[], 3⟩) 100 10
    (fun _ => rfl) (fun _ => rfl) (by decide) (by decide) (by decide)

/-- Claim C7 counterexample: against an upstream that declares
`total_page = 3` on every response but returns empty pages, the
shop-advertiser paginator stops after 1 page request, not 3 — page
content does matter. -/
theorem pagination_empty_page_stops_early :
    (qcShopAdvertiserList (fun _ => ⟨[], [], 3⟩) 100 10).2.2 = 1
    ∧ (1 : Nat) ≠ 3 := by
  constructor
  · rfl
  · decide

/-! ## Claim C9 -/

/-- The operations that ever touch `oe.fact_comment_action`: per-attempt
`upsert_action` writes and the notify step's `mark_notified`. -/
inductive ActionOp where
  | actUpsert (advId cid : Nat) (action : String) (ts : Nat) (status : String)
      (reqId : Option String) (ec : Option Int) (em : Option String)
      (raw : Option String)
  | actNotify (keys : List (Nat × Nat)) (now : Nat)

def applyActionOp (t : ActionTable) : ActionOp → ActionTable
  | .actUpsert advId cid action ts status reqId ec em raw =>
    upsertAction t advId cid action ts status reqId ec em raw
  | .actNotify keys now => markNotified t keys now

def applyActionOps (t : ActionTable) (ops : List ActionOp) : ActionTable :=
  ops.foldl applyActionOp t

theorem upsertAction_keeps_notified_at (t : ActionTable) (k : Nat × Nat × String)
    (r : ActionRow) (advId cid : Nat) (action : String) (ts : Nat) (status : String)
    (reqId : Option String) (ec : Option Int) (em : Option String) (raw : Option String)
    (h : findRow t k = some r) :
    ∃ r2, findRow (upsertAction t advId cid action ts status reqId ec em raw) k = some r2
      ∧ r2.notified_at = r.notified_at := by
  by_cases hk : k = (advId, cid, action)
  · subst hk
    rw [upsertAction, findRow_tupsert_self, h]
    exact ⟨_, rfl, rfl⟩
  · rw [upsertAction, findRow_tupsert_ne _ _ _ _ _ hk, h]
    exact ⟨r, rfl, rfl⟩

theorem applyActionOp_keeps_notified_isSome (t : ActionTable) (op : ActionOp)
    (k : Nat × Nat × String) (r : ActionRow)
    (h : findRow t k = some r) (hs : r.notified_at.isSome) :
    ∃ r2, findRow (applyActionOp t op) k = some r2 ∧ r2.notified_at.isSome := by
  cases op with
  | actUpsert advId cid action ts status reqId ec em raw =>
    obtain ⟨r2, h2, he⟩ := upsertAction_keeps_notified_at t k r advId cid action ts status
      reqId ec em raw h
    exact ⟨r2, h2, he ▸ hs⟩
  | actNotify keys now =>
    refine ⟨markNotifiedRow keys now k r, ?_, ?_⟩
    · rw [applyActionOp, markNotified, findRow_map_rows, h]
      rfl
    · rw [markNotifiedRow]
      by_cases hc : (k.1, k.2.1) ∈ keys ∧ k.2.2 = "hide" ∧ r.status = "success"
      · simp [hc]
      · simpa [hc] using hs

/-- Claim C9: once an action row's `notified_at` marker is set, no
sequence of further operations on the action table — retried
`upsert_action` writes or `mark_notified` calls — ever clears it; and a
single `upsert_action` retry on an existing row leaves the stored
`notified_at` value exactly unchanged while the notify step only ever
sets the marker. -/
theorem notified_at_never_cleared
    (ops : List ActionOp) (t : ActionTable) (k : Nat × Nat × String) (r : ActionRow)
    (h : findRow t k = some r) (hs : r.notified_at.isSome) :
    (∃ r2, findRow (applyActionOps t ops) k = some r2 ∧ r2.notified_at.isSome)
    ∧ ∀ (advId cid : Nat) (action : String) (ts : Nat) (status : String)
        (reqId : Option String) (ec : Option Int) (em : Option String)
        (raw : Option String),
        ∃ r2, findRow (upsertAction t advId cid action ts status reqId ec em raw) k
            = some r2 ∧ r2.notified_at = r.notified_at := by
  constructor
  · induction ops generalizing t r with
    | nil => exact ⟨r, h, hs⟩
    | cons op rest ih =>
      obtain ⟨r2, h2, hs2⟩ := applyActionOp_keeps_notified_isSome t op k r h hs
      exact ih (applyActionOp t op) r2 h2 hs2
  · intro advId cid action ts status reqId ec em raw
    exact upsertAction_keeps_notified_at t k r advId cid action ts status reqId ec em raw h

theorem notified_at_never_cleared_witness :
    (findRow (applyActionOps
        [((1, 11, "hide"),
          { action_ts := 3, status := "success", request_id := some "req"
            error_code := none, error_message := none, raw := some "resp"
            notified_at := some 4 })]
        [.actUpsert 1 11 "hide" 9 "failed" none none (some "timeout") none,
         .actNotify [(1, 11)] 10]) (1, 11, "hide")).map
      (fun r2 => r2.notified_at.isSome) = some true := by
  obtain ⟨r2, h2, hs2⟩ := (notified_at_never_cleared
    [.actUpsert 1 11 "hide" 9 "failed" none none (some "timeout") none,
     .actNotify [(1, 11)] 10]
    [((1, 11, "hide"),
      { action_ts := 3, status := "success", request_id := some "req"
        error_code := none, error_message := none, raw := some "resp"
        notified_at := some 4 })]
    (1, 11, "hide")
    { action_ts := 3, status := "success", request_id := some "req"
      error_code := none, error_message := none, raw := some "resp"
      notified_at := some 4 }
    (by decide) (by decide)).1
  rw [h2]
  simpa using hs2

/-! ## Claim C3 -/

theorem map_fst_pair (l : List Nat) (s : String) :
    (l.map (fun c => (c, s))).map Prod.fst = l := by
  induction l with
  | nil => rfl
  | cons x xs ih => simp [ih]

theorem length_filter_pair_same (l : List Nat) (s : String) :
    ((l.map (fun c => (c, s))).filter (fun p => p.2 == s)).length = l.length := by
  induction l with
  | nil => rfl
  | cons x xs ih => simp [ih]

theorem filter_pair_ne (l : List Nat) (s s2 : String) (h : s ≠ s2) :
    (l.map (fun c => (c, s))).filter (fun p => p.2 == s2) = [] := by
  induction l with
  | nil => rfl
  | cons x xs ih => simp [ih, h]

/-- Claim C3 (amended): per hide batch of `n` distinct comment ids whose
reported success-id list is duplicate-free and contained in the batch,
exactly `n` action-outcome rows are written — the written ids are a
permutation of the batch, a `'success'` row appears exactly for the ids
of the success list, a `'failed'` row exactly for the remaining batch
ids, and the success/failed row counts are `|success|` and
`n - |success|` (so 20 ids with 15 reported successful yield 15 success
rows and 5 failed rows). -/
theorem hide_batch_partition (batch success : List Nat) (rid : Option String)
    (hbn : batch.Nodup) (hsn : success.Nodup) (hsub : ∀ x ∈ success, x ∈ batch) :
    ((hideBatchStatusWrites batch (.ok ⟨success, rid⟩)).map Prod.fst).Perm batch
    ∧ (∀ cid, (cid, "success") ∈ hideBatchStatusWrites batch (.ok ⟨success, rid⟩)
        ↔ cid ∈ success)
    ∧ (∀ cid, (cid, "failed") ∈ hideBatchStatusWrites batch (.ok ⟨success, rid⟩)
        ↔ cid ∈ batch ∧ cid ∉ success)
    ∧ (hideBatchStatusWrites batch (.ok ⟨success, rid⟩)).length = batch.length
    ∧ ((hideBatchStatusWrites batch (.ok ⟨success, rid⟩)).filter
        (fun p => p.2 == "success")).length = success.length
    ∧ ((hideBatchStatusWrites batch (.ok ⟨success, rid⟩)).filter
        (fun p => p.2 == "failed")).length = batch.length - success.length := by
  have hne : ("success" : String) ≠ "failed" := by decide
  have hne2 : ("failed" : String) ≠ "success" := by decide
  have hfails : batch.filter (fun x => decide (x ∉ success))
      = batch.filter (fun x => !(decide (x ∈ success))) := by
    simp [decide_not]
  have hws : hideBatchStatusWrites batch (.ok ⟨success, rid⟩)
      = success.map (fun c => (c, "success"))
        ++ (batch.filter (fun x => decide (x ∉ success))).map (fun c => (c, "failed")) := rfl
  have hperm1 : success.Perm (batch.filter (fun x => decide (x ∈ success))) := by
    refine List.perm_of_nodup_nodup_toFinset_eq hsn (hbn.filter _) ?_
    ext x
    simp only [List.mem_toFinset, List.mem_filter, decide_eq_true_eq]
    exact ⟨fun hx => ⟨hsub x hx, hx⟩, fun hx => hx.2⟩
  have hmapfst : (hideBatchStatusWrites batch (.ok ⟨success, rid⟩)).map Prod.fst
      = success ++ batch.filter (fun x => decide (x ∉ success)) := by
    rw [hws, List.map_append, map_fst_pair, map_fst_pair]
  have hperm : ((hideBatchStatusWrites batch (.ok ⟨success, rid⟩)).map Prod.fst).Perm batch := by
    rw [hmapfst, hfails]
    exact ((hperm1.append_right _).trans
      (List.filter_append_perm (fun x => decide (x ∈ success)) batch))
  have hflen : (batch.filter (fun x => decide (x ∉ success))).length
      = batch.length - success.length := by
    have hsplit := List.length_eq_length_filter_add (l := batch)
      (fun x => decide (x ∈ success))
    have hsl : success.length = (batch.filter (fun x => decide (x ∈ success))).length :=
      hperm1.length_eq
    rw [hfails]
    omega
  refine ⟨hperm, ?_, ?_, ?_, ?_, ?_⟩
  · intro cid
    rw [hws]
    simp [List.mem_append, List.mem_map, List.mem_filter, hne2]
  · intro cid
    rw [hws]
    simp [List.mem_append, List.mem_map, List.mem_filter, hne]
  · have := hperm.length_eq
    simpa using this
  · rw [hws, List.filter_append, filter_pair_ne _ _ _ hne2]
    simp [length_filter_pair_same]
  · rw [hws, List.filter_append, filter_pair_ne _ _ _ hne]
    simpa [length_filter_pair_same] using hflen

theorem hide_batch_partition_witness :
    ((hideBatchStatusWrites (List.range' 1 20) (.ok ⟨List.range' 1 15, some "r"⟩)).filter
        (fun p => p.2 == "success")).length = 15
    ∧ ((hideBatchStatusWrites (List.range' 1 20) (.ok ⟨List.range' 1 15, some "r"⟩)).filter
        (fun p => p.2 == "failed")).length = 5 := by
  have h := hide_batch_partition (List.range' 1 20) (List.range' 1 15) (some "r")
    (by decide) (by decide) (by decide)
  refine ⟨?_, ?_⟩
  · have := h.2.2.2.2.1
    simpa using this
  · have := h.2.2.2.2.2
    simpa using this

/-- Claim C3 counterexample: when the platform reports a success id that
is not part of the batch, a row is written for it as well — a batch of 2
ids yields 3 action-outcome rows, including a `'success'` row for an id
outside the batch. -/
theorem hide_batch_foreign_success_id :
    (hideBatchStatusWrites [1, 2] (.ok ⟨[999], some "rid"⟩)).length = 3
    ∧ (999, "success") ∈ hideBatchStatusWrites [1, 2] (.ok ⟨[999], some "rid"⟩)
    ∧ (999 : Nat) ∉ [1, 2] := by
  refine ⟨rfl, ?_, by decide⟩
  simp [hideBatchStatusWrites]

/-! ## Claim C2 -/

/-- Claim C2 (amended): a pass of `run_once` that hits an unrecovered
exception rolls its database transaction back in full and reports the
exception — and that rollback covers the `fact_comment_action` rows
written during the pass too, because `upsert_action` writes through the
same autocommit-off connection: the committed database after a failed
pass equals the state before it. -/
theorem run_once_rollback_on_error
    (db : DB) (now : Nat) (tasks : List AdvTask) (e : Int × String)
    (herr : (runOncePass db now tasks).1 = .error e) :
    (runOncePass db now tasks).2 = db := by
  unfold runOncePass at herr ⊢
  cases h : runOnceLoop now db tasks with
  | ok fdb =>
    rw [h] at herr
    simp at herr
  | error e2 => rfl

/-- A comment observed by the pass used in concrete run-once scenarios. -/
def sampleNegComment : CommentInput :=
  { advertiser_id := some 1, comment_id := some 11
    emotion_type := some "NEGATIVE", text := some "bad product", raw := "rawjson" }

def sampleTaskOk : AdvTask :=
  ⟨1, .ok [sampleNegComment], fun _ => .ok ⟨[11], some "req-1"⟩⟩

def sampleTaskErr : AdvTask :=
  ⟨2, .apiErr 50000 "server error", fun _ => .exn "unused"⟩

theorem run_once_rollback_on_error_witness :
    (runOncePass ⟨[], []⟩ 7 [sampleTaskErr]).2 = ⟨[], []⟩ :=
  run_once_rollback_on_error ⟨[], []⟩ 7 [sampleTaskErr] (50000, "server error") rfl

/-- Claim C2 counterexample: an action-outcome row written during a pass
does not survive the rollback.  A pass over only the first advertiser
commits a `'hide'` action row for comment 11; the same pass extended
with a second advertiser whose fetch raises a non-permission
`OeApiError` rolls back and reports the error, and the committed action
table no longer contains that row. -/
theorem run_once_action_rows_lost_on_rollback :
    (findRow (runOncePass ⟨[], []⟩ 7 [sampleTaskOk]).2.actions (1, 11, "hide")).isSome = true
    ∧ (runOncePass ⟨[], []⟩ 7 [sampleTaskOk, sampleTaskErr]).1
        = .error (50000, "server error")
    ∧ findRow (runOncePass ⟨[], []⟩ 7 [sampleTaskOk, sampleTaskErr]).2.actions
        (1, 11, "hide") = none := by
  refine ⟨rfl, rfl, rfl⟩

/-! ## Claim C10 -/

theorem daterangeChunksAux_stop (e days f c : Nat) (h : ¬(c ≤ e)) :
    daterangeChunksAux e days f c = [] := by
  cases f with
  | zero => rfl
  | succ f2 => rw [daterangeChunksAux, if_neg h]

theorem daterangeChunksAux_spec (e days : Nat) (hdays : 1 ≤ days) :
    ∀ (fuel cur : Nat), cur ≤ e → e + 1 - cur ≤ fuel →
    chunkCover (daterangeChunksAux e days fuel cur) = List.range' cur (e + 1 - cur)
    ∧ (∀ c ∈ daterangeChunksAux e days fuel cur, c.1 ≤ c.2 ∧ c.2 + 1 - c.1 ≤ days)
    ∧ ((daterangeChunksAux e days fuel cur).map Prod.fst).head? = some cur
    ∧ ((daterangeChunksAux e days fuel cur).map Prod.snd).getLast? = some e := by
  intro fuel
  induction fuel with
  | zero =>
    intro cur h1 h2
    exact absurd h2 (by omega)
  | succ f ih =>
    intro cur h1 h2
    rw [daterangeChunksAux, if_pos h1]
    by_cases hend : e ≤ cur + days - 1
    · have hnxt : min e (cur + days - 1) = e := Nat.min_eq_left hend
      rw [hnxt, daterangeChunksAux_stop e days f (e + 1) (by omega)]
      refine ⟨?_, ?_, ?_, ?_⟩
      · simp [chunkCover]
      · intro c hc
        rw [List.mem_singleton] at hc
        subst hc
        exact ⟨h1, by omega⟩
      · rfl
      · rfl
    · have hle : cur + days - 1 ≤ e := by omega
      have hnxt : min e (cur + days - 1) = cur + days - 1 := Nat.min_eq_right hle
      rw [hnxt]
      obtain ⟨ihc, ihb, ihh, ihl⟩ := ih (cur + days - 1 + 1) (by omega) (by omega)
      refine ⟨?_, ?_, ?_, ?_⟩
      · have hA : cur + 1 * (cur + days - 1 + 1 - cur) = cur + days - 1 + 1 := by omega
        have hB : (e + 1 - (cur + days - 1 + 1)) + (cur + days - 1 + 1 - cur)
            = e + 1 - cur := by omega
        have hr := List.range'_append cur (cur + days - 1 + 1 - cur)
          (e + 1 - (cur + days - 1 + 1)) 1
        rw [hA, hB] at hr
        calc chunkCover ((cur, cur + days - 1) ::
                daterangeChunksAux e days f (cur + days - 1 + 1))
            = List.range' cur (cur + days - 1 + 1 - cur) ++
                chunkCover (daterangeChunksAux e days f (cur + days - 1 + 1)) := rfl
          _ = List.range' cur (cur + days - 1 + 1 - cur) ++
                List.range' (cur + days - 1 + 1) (e + 1 - (cur + days - 1 + 1)) := by
                rw [ihc]
          _ = List.range' cur (e + 1 - cur) := hr
      · intro c hc
        rw [List.mem_cons] at hc
        rcases hc with hc | hc
        · subst hc
          exact ⟨by omega, by omega⟩
        · exact ihb c hc
      · rfl
      · match hrest : daterangeChunksAux e days f (cur + days - 1 + 1) with
        | [] =>
          rw [hrest] at ihh
          cases ihh
        | r :: rs =>
          rw [hrest] at ihl
          rw [List.map_cons] at ihl
          rw [List.map_cons, List.map_cons, List.getLast?_cons_cons]
          exact ihl

/-- Claim C10: for `s ≤ e` and a window length of at least one day,
`daterange_chunks` returns windows that are in order, consecutive and
non-overlapping, jointly covering each day of `[s, e]` exactly once
(their concatenated day ranges equal `[s..e]`), with every window
well-formed and at most `days` long, the first window starting at `s`
and the last ending at `e`. -/
theorem daterange_chunks_partition (s e days : Nat) (hse : s ≤ e) (hdays : 1 ≤ days) :
    chunkCover (daterangeChunks s e days) = List.range' s (e + 1 - s)
    ∧ (∀ c ∈ daterangeChunks s e days, c.1 ≤ c.2 ∧ c.2 + 1 - c.1 ≤ days)
    ∧ ((daterangeChunks s e days).map Prod.fst).head? = some s
    ∧ ((daterangeChunks s e days).map Prod.snd).getLast? = some e :=
  daterangeChunksAux_spec e days hdays (e + 1 - s) s hse (Nat.le_refl _)

theorem daterange_chunks_partition_witness :
    chunkCover (daterangeChunks 3 9 3) = List.range' 3 7
    ∧ ((daterangeChunks 3 9 3).map Prod.fst).head? = some 3
    ∧ ((daterangeChunks 3 9 3).map Prod.snd).getLast? = some 9 := by
  obtain ⟨h1, -, h3, h4⟩ := daterange_chunks_partition 3 9 3 (by decide) (by decide)
  exact ⟨h1, h3, h4⟩

end TfDoudian
